import Mathlib

/-!
Shallow embedding of the swapchain/frame-lifecycle subsystem of the vkLearn
tutorial repository (chapters `vk_triangle` and `vk_depth_buffering`, plus the
shared `vkutils` helpers).  Pure selection helpers become Lean functions;
the frame-loop driver (`drawFrame`) and the swapchain rebuild protocol
(`cleanupSwapChain` / `recreateSwapChain`) become explicit state transitions
producing traces of the API actions they perform, in source order.
-/

namespace VkLearn

/-- Width/height pair; `vk::Extent2D` (uint32 components). -/
structure Extent2D where
  width : Nat
  height : Nat
deriving DecidableEq, Repr

/-- `std::numeric_limits<std::uint32_t>::max()`. -/
def uint32Max : Nat := 4294967295

/-- `vk::SurfaceCapabilitiesKHR`, restricted to the fields the code reads. -/
structure SurfaceCapabilities where
  currentExtent : Extent2D
  minImageExtent : Extent2D
  maxImageExtent : Extent2D
  minImageCount : Nat
  maxImageCount : Nat
deriving DecidableEq, Repr

/-- `HelloTriangleApplication::chooseSwapExtent` (HelloTriangle.cpp:624-652;
identically `vkutils::chooseSwapExtent`).  The window framebuffer size
returned by `glfwGetFramebufferSize` is passed in as `framebufferSize`.
The source tests only `capabilities.currentExtent.width` against
`uint32Max`; on the clamp branch each component is
`max(minImageExtent, min(maxImageExtent, actual))`. -/
def chooseSwapExtent (capabilities : SurfaceCapabilities)
    (framebufferSize : Extent2D) : Extent2D :=
  if capabilities.currentExtent.width ≠ uint32Max then
    capabilities.currentExtent
  else
    { width := max capabilities.minImageExtent.width
        (min capabilities.maxImageExtent.width framebufferSize.width),
      height := max capabilities.minImageExtent.height
        (min capabilities.maxImageExtent.height framebufferSize.height) }

/-- The special "extent is determined by the swapchain" marker value
`(0xFFFFFFFF, 0xFFFFFFFF)` that a surface reports when its current extent
is undefined. -/
def undefinedExtentSentinel : Extent2D := ⟨uint32Max, uint32Max⟩

/-- Clamp of the window size into the `[min, max]` extent bounds, written
from the spec's words ("the window framebuffer size clamped component-wise
into [min extent, max extent]"), for comparison with `chooseSwapExtent`. -/
def specClampedExtent (capabilities : SurfaceCapabilities)
    (framebufferSize : Extent2D) : Extent2D :=
  { width := max capabilities.minImageExtent.width
      (min capabilities.maxImageExtent.width framebufferSize.width),
    height := max capabilities.minImageExtent.height
      (min capabilities.maxImageExtent.height framebufferSize.height) }

/-- Image-count policy of `createSwapChain` (HelloTriangle.cpp:681-686;
identically `vkutils::createSwapchainKHR`). -/
def swapchainImageCount (capabilities : SurfaceCapabilities) : Nat :=
  let imageCount := capabilities.minImageCount + 1
  if capabilities.maxImageCount > 0 ∧ imageCount > capabilities.maxImageCount
  then capabilities.maxImageCount
  else imageCount

/-- `vk::Format`, restricted to the constructors the code names; `other`
carries the raw enum value of any remaining format. -/
inductive Format where
  | b8g8r8a8Unorm
  | other (value : Nat)
deriving DecidableEq, Repr

/-- `vk::ColorSpaceKHR`. -/
inductive ColorSpace where
  | srgbNonlinear
  | other (value : Nat)
deriving DecidableEq, Repr

/-- `vk::SurfaceFormatKHR`. -/
structure SurfaceFormat where
  format : Format
  colorSpace : ColorSpace
deriving DecidableEq, Repr

/-- `vk::PresentModeKHR`. -/
inductive PresentMode where
  | immediate
  | fifo
  | fifoRelaxed
  | mailbox
deriving DecidableEq, Repr

/-- `HelloTriangleApplication::chooseSwapSurfaceFormat`
(HelloTriangle.cpp:576-594; identically `vkutils::chooseSwapSurfaceFormat`):
scan for BGRA8-unorm + SRGB-nonlinear, else `availableFormats[0]`.  The
out-of-bounds access on an empty vector is modelled as `none`. -/
def chooseSwapSurfaceFormat (availableFormats : List SurfaceFormat) :
    Option SurfaceFormat :=
  match availableFormats.find? (fun f =>
      decide (f.format = Format.b8g8r8a8Unorm ∧
        f.colorSpace = ColorSpace.srgbNonlinear)) with
  | some f => some f
  | none => availableFormats.head?

/-- `HelloTriangleApplication::chooseSwapPresentMode`
(HelloTriangle.cpp:596-622; identically `vkutils::chooseSwapPresentMode`):
scan for mailbox, else FIFO. -/
def chooseSwapPresentMode (availablePresentModes : List PresentMode) :
    PresentMode :=
  match availablePresentModes.find? (fun m =>
      decide (m = PresentMode.mailbox)) with
  | some m => m
  | none => PresentMode.fifo

/-- `vk::PhysicalDeviceType`, restricted to the constructors the code
names. -/
inductive PhysicalDeviceType where
  | discreteGpu
  | integratedGpu
  | other (value : Nat)
deriving DecidableEq, Repr

/-- One entry of `device.getQueueFamilyProperties()`, paired with the
per-family `device.getSurfaceSupportKHR(i, surface)` answer the loop in
`findQueueFamilies` queries for it. -/
structure QueueFamilyProperties where
  queueCount : Nat
  graphicsSupport : Bool
  presentSupport : Bool
deriving DecidableEq, Repr

/-- `HelloTriangleApplication::QueueFamilyIndices`. -/
structure QueueFamilyIndices where
  graphicsFamily : Option Nat
  presentFamily : Option Nat
deriving DecidableEq, Repr

/-- `QueueFamilyIndices::isComplete`. -/
def QueueFamilyIndices.isComplete (indices : QueueFamilyIndices) : Bool :=
  indices.graphicsFamily.isSome && indices.presentFamily.isSome

/-- Loop body of `findQueueFamilies` (HelloTriangle.cpp:422-448), indexed
by the running counter `i`. -/
def findQueueFamiliesAux : Nat → QueueFamilyIndices →
    List QueueFamilyProperties → QueueFamilyIndices
  | _, indices, [] => indices
  | i, indices, queueFamily :: rest =>
    let indices' :=
      if queueFamily.queueCount > 0 ∧ queueFamily.graphicsSupport then
        { indices with graphicsFamily := some i }
      else indices
    let indices'' :=
      if queueFamily.queueCount > 0 ∧ queueFamily.presentSupport then
        { indices' with presentFamily := some i }
      else indices'
    findQueueFamiliesAux (i + 1) indices'' rest

/-- `HelloTriangleApplication::findQueueFamilies`. -/
def findQueueFamilies (queueFamilies : List QueueFamilyProperties) :
    QueueFamilyIndices :=
  findQueueFamiliesAux 0 ⟨none, none⟩ queueFamilies

/-- The physical device, carrying the answers to the queries
`isDeviceSuitable` makes of it. -/
structure PhysicalDevice where
  deviceType : PhysicalDeviceType
  queueFamilies : List QueueFamilyProperties
  availableExtensions : List String
  formats : List SurfaceFormat
  presentModes : List PresentMode
deriving DecidableEq, Repr

/-- `globals::deviceExtensions = {VK_KHR_SWAPCHAIN_EXTENSION_NAME}`. -/
def deviceExtensions : List String := ["VK_KHR_swapchain"]

/-- `HelloTriangleApplication::checkDeviceExtensionSupport`
(HelloTriangle.cpp:543-562): every required extension appears among the
device's available extensions. -/
def checkDeviceExtensionSupport (device : PhysicalDevice) : Bool :=
  deviceExtensions.all (fun e => device.availableExtensions.contains e)

/-- `HelloTriangleApplication::isDeviceSuitable`
(HelloTriangle.cpp:386-420; the `vkutils` version in the buffers chapter is
identical in structure). -/
def isDeviceSuitable (device : PhysicalDevice) : Bool :=
  let indices := findQueueFamilies device.queueFamilies
  let isDeviceValid :=
    device.deviceType = PhysicalDeviceType.discreteGpu ∨
    device.deviceType = PhysicalDeviceType.integratedGpu
  let areExtensionsSupported := checkDeviceExtensionSupport device
  let isSwapChainAdequate :=
    if areExtensionsSupported then
      !device.formats.isEmpty && !device.presentModes.isEmpty
    else false
  decide isDeviceValid && indices.isComplete && areExtensionsSupported &&
    isSwapChainAdequate

/-- The `for` loop of `pickPhysicalDevice` (HelloTriangle.cpp:370-383):
`selected` is the running value of the member `mPhysicalDevice` (initially
null).  A suitable device is stored and the loop breaks; otherwise the
loop throws only if `mPhysicalDevice` is already set. -/
def pickPhysicalDeviceLoop : List PhysicalDevice → Option PhysicalDevice →
    Except String (Option PhysicalDevice)
  | [], selected => .ok selected
  | device :: rest, selected =>
    if isDeviceSuitable device then .ok (some device)
    else if selected.isSome then
      .error "error: there are no devices that support Vulkan."
    else pickPhysicalDeviceLoop rest selected

/-- `HelloTriangleApplication::pickPhysicalDevice`
(HelloTriangle.cpp:360-384; `Application::pickPhysicalDevice` in the
depth-buffering chapter is identical): throws if the enumeration is empty,
then runs the selection loop; the returned option is the final value of
`mPhysicalDevice`. -/
def pickPhysicalDevice (devices : List PhysicalDevice) :
    Except String (Option PhysicalDevice) :=
  if devices.isEmpty then
    .error "error: there are no devices that support Vulkan."
  else pickPhysicalDeviceLoop devices none

/-- `vk::Result`, restricted to the constructors `drawFrame` names; `eOther`
carries the raw value of any other result code (e.g. `eErrorDeviceLost`). -/
inductive VkResult where
  | eSuccess
  | eSuboptimalKHR
  | eErrorOutOfDateKHR
  | eOther (value : Nat)
deriving DecidableEq, Repr

/-- One Vulkan/GLFW call made by `drawFrame`, recorded in source order. -/
inductive Action where
  | waitFences (slot : Nat)
  | acquireNextImage (slot : Nat)
  | destroySemaphore (slot : Nat)
  | createSemaphore (slot : Nat)
  | clearResizeFlag
  | recreateSwapchain
  | updateUniformBuffer (imageIndex : Nat)
  | resetFences (slot : Nat)
  | submit (imageIndex : Nat) (slot : Nat)
  | present (imageIndex : Nat)
  | advanceFrame
deriving DecidableEq, Repr

/-- How a non-throwing `drawFrame` call ended: early return on the rebuild
path, or a full submit/present iteration. -/
inductive FrameOutcome where
  | rebuilt
  | presented
deriving DecidableEq, Repr

/-- The mutable members of `Application` that `drawFrame` reads or writes.
Semaphores are modelled by a per-slot generation number (`imageAvailGen`),
bumped when the slot's "image available" semaphore is destroyed and
recreated; `swapchainGen` is bumped by `recreateSwapChain`; `fenceSignaled`
holds the signalled-state of each slot's in-flight fence. -/
structure AppState where
  maxFramesInFlight : Nat
  currentFrame : Nat
  framebufferResized : Bool
  imageAvailGen : List Nat
  fenceSignaled : List Bool
  swapchainGen : Nat
deriving DecidableEq, Repr

/-- Would the `waitForFences` call at the top of `drawFrame` block?  It
blocks exactly when the current slot's fence is not signalled. -/
def waitWouldBlock (s : AppState) : Bool :=
  !(s.fenceSignaled.getD s.currentFrame false)

/-- `Application::drawFrame` (vk_depth_buffering main.cpp:1041-1114;
`HelloTriangleApplication::drawFrame` is identical except that it has no
`updateUniformBuffer` call).  The acquire call's result code and acquired
image index are inputs (`acquireResult`, `acquiredIndex`); the returned
trace lists the calls made, in source order, and the returned state holds
the members after the call.  `throw` becomes `Except.error`. -/
def drawFrame (s : AppState) (acquireResult : VkResult)
    (acquiredIndex : Nat) :
    Except String (AppState × FrameOutcome × List Action) :=
  let pre : List Action :=
    [Action.waitFences s.currentFrame, Action.acquireNextImage s.currentFrame]
  if acquireResult = VkResult.eErrorOutOfDateKHR ∨
      acquireResult = VkResult.eSuboptimalKHR ∨
      s.framebufferResized then
    let bumped :=
      s.imageAvailGen.set s.currentFrame
        (s.imageAvailGen.getD s.currentFrame 0 + 1)
    let (s1, semTrace) :=
      if s.framebufferResized ∧ acquireResult = VkResult.eSuccess then
        ({ s with imageAvailGen := bumped },
         [Action.destroySemaphore s.currentFrame,
          Action.createSemaphore s.currentFrame])
      else (s, ([] : List Action))
    let s2 := { s1 with framebufferResized := false }
    let s3 := { s2 with swapchainGen := s2.swapchainGen + 1 }
    .ok (s3, FrameOutcome.rebuilt,
      pre ++ semTrace ++ [Action.clearResizeFlag, Action.recreateSwapchain])
  else if acquireResult ≠ VkResult.eSuccess then
    .error "error: unable to acquire swap chain image."
  else
    let imageIndex := acquiredIndex
    let s1 := { s with
      fenceSignaled := s.fenceSignaled.set s.currentFrame false }
    let s2 := { s1 with
      currentFrame := (s1.currentFrame + 1) % s1.maxFramesInFlight }
    .ok (s2, FrameOutcome.presented,
      pre ++ [Action.updateUniformBuffer imageIndex,
        Action.resetFences s.currentFrame,
        Action.submit imageIndex s.currentFrame,
        Action.present imageIndex,
        Action.advanceFrame])

/-- Post-call state; the pre-call state is returned on the throwing path
(the throw happens before any member is written). -/
def frameStateOf (s : AppState)
    (r : Except String (AppState × FrameOutcome × List Action)) : AppState :=
  match r with
  | .ok (s', _, _) => s'
  | .error _ => s

/-- Outcome of a non-throwing call; `none` when the call threw. -/
def frameOutcomeOf
    (r : Except String (AppState × FrameOutcome × List Action)) :
    Option FrameOutcome :=
  match r with
  | .ok (_, outcome, _) => some outcome
  | .error _ => none

/-- Trace of a non-throwing call; empty when the call threw (nothing beyond
the wait/acquire pair runs, and in particular no semaphore is recreated). -/
def frameTraceOf
    (r : Except String (AppState × FrameOutcome × List Action)) :
    List Action :=
  match r with
  | .ok (_, _, trace) => trace
  | .error _ => []

/-- Is this action a `resetFences` call? -/
def Action.isResetFences : Action → Bool
  | Action.resetFences _ => true
  | _ => false

/-- Is this action a queue submission? -/
def Action.isSubmit : Action → Bool
  | Action.submit _ _ => true
  | _ => false

/-- Is this action the frame-index advance? -/
def Action.isAdvanceFrame : Action → Bool
  | Action.advanceFrame => true
  | _ => false

/-- Is this action a `createSemaphore` call? -/
def Action.isCreateSemaphore : Action → Bool
  | Action.createSemaphore _ => true
  | _ => false

/-- One step of the swapchain teardown/rebuild protocol.  Loops that
destroy one handle per swapchain image (framebuffers, image views) are
recorded as a single aggregate step, matching the claim's granularity;
`destroyCommandPool` / `createCommandPool` never occur in either chapter
and exist so that their absence can be stated. -/
inductive RebuildAction where
  | destroyDepthResources
  | destroyFramebuffers
  | freeCommandBuffers
  | destroyPipeline
  | destroyPipelineLayout
  | destroyRenderPass
  | destroyImageViews
  | destroySwapchain
  | destroyUniformBuffers
  | destroyDescriptorSets
  | destroyDescriptorPool
  | destroyCommandPool
  | createSwapchain
  | createImageViews
  | createRenderPass
  | createGraphicsPipeline
  | createDepthResources
  | createFramebuffers
  | createUniformBuffers
  | createDescriptorPool
  | createDescriptorSets
  | createCommandBuffers
  | createCommandPool
deriving DecidableEq, Repr

/-- `HelloTriangleApplication::cleanupSwapChain`
(HelloTriangle.cpp:1284-1319), as the ordered list of destroy steps it
performs. -/
def cleanupSwapChainTriangle : List RebuildAction :=
  [RebuildAction.destroyFramebuffers,
   RebuildAction.freeCommandBuffers,
   RebuildAction.destroyPipeline,
   RebuildAction.destroyPipelineLayout,
   RebuildAction.destroyRenderPass,
   RebuildAction.destroyImageViews,
   RebuildAction.destroySwapchain]

/-- `HelloTriangleApplication::recreateSwapChain`
(HelloTriangle.cpp:1263-1282): teardown followed by the create calls, in
source order. -/
def recreateSwapChainTriangle : List RebuildAction :=
  cleanupSwapChainTriangle ++
  [RebuildAction.createSwapchain,
   RebuildAction.createImageViews,
   RebuildAction.createRenderPass,
   RebuildAction.createGraphicsPipeline,
   RebuildAction.createFramebuffers,
   RebuildAction.createCommandBuffers]

/-- `Application::cleanupSwapChain` (vk_depth_buffering main.cpp:1141-1190),
as the ordered list of destroy steps it performs. -/
def cleanupSwapChainDepth : List RebuildAction :=
  [RebuildAction.destroyDepthResources,
   RebuildAction.destroyFramebuffers,
   RebuildAction.freeCommandBuffers,
   RebuildAction.destroyPipeline,
   RebuildAction.destroyPipelineLayout,
   RebuildAction.destroyRenderPass,
   RebuildAction.destroyImageViews,
   RebuildAction.destroySwapchain,
   RebuildAction.destroyUniformBuffers,
   RebuildAction.destroyDescriptorSets,
   RebuildAction.destroyDescriptorPool]

/-- `Application::recreateSwapChain` (vk_depth_buffering
main.cpp:1116-1139): teardown followed by the create calls, in source
order. -/
def recreateSwapChainDepth : List RebuildAction :=
  cleanupSwapChainDepth ++
  [RebuildAction.createSwapchain,
   RebuildAction.createImageViews,
   RebuildAction.createRenderPass,
   RebuildAction.createGraphicsPipeline,
   RebuildAction.createDepthResources,
   RebuildAction.createFramebuffers,
   RebuildAction.createUniformBuffers,
   RebuildAction.createDescriptorPool,
   RebuildAction.createDescriptorSets,
   RebuildAction.createCommandBuffers]

/-- Position of the first occurrence of `a` in the trace `tr`. -/
def actionIdx (tr : List RebuildAction) (a : RebuildAction) : Nat :=
  tr.findIdx (fun b => decide (b = a))

/-- The preferred surface format: BGRA8-unorm with SRGB-nonlinear color
space. -/
def preferredSurfaceFormat : SurfaceFormat :=
  ⟨Format.b8g8r8a8Unorm, ColorSpace.srgbNonlinear⟩

theorem surfaceFormatPred_eq_true_iff (f : SurfaceFormat) :
    (decide (f.format = Format.b8g8r8a8Unorm ∧
      f.colorSpace = ColorSpace.srgbNonlinear) = true) ↔
    f = preferredSurfaceFormat := by
  cases f with
  | mk fmt cs =>
    simp [preferredSurfaceFormat, SurfaceFormat.mk.injEq]

theorem presentModePred_eq_true_iff (m : PresentMode) :
    (decide (m = PresentMode.mailbox) = true) ↔ m = PresentMode.mailbox := by
  simp

theorem find?_some_and_mem {α : Type} {p : α → Bool} {a : α} {l : List α}
    (h : List.find? p l = some a) : p a = true ∧ a ∈ l :=
  ⟨List.find?_some h, List.mem_of_find?_eq_some h⟩

/-- C3 counterexample: a capability set whose current extent is not the
sentinel `(0xFFFFFFFF, 0xFFFFFFFF)` (only its width is `0xFFFFFFFF`), yet
the chosen extent is the clamped window size, not the surface-reported
extent verbatim. -/
theorem chooseSwapExtent_width_only_counterexample :
    (SurfaceCapabilities.mk ⟨uint32Max, 300⟩ ⟨100, 100⟩ ⟨4000, 4000⟩ 2
        0).currentExtent ≠ undefinedExtentSentinel ∧
    chooseSwapExtent
        (SurfaceCapabilities.mk ⟨uint32Max, 300⟩ ⟨100, 100⟩ ⟨4000, 4000⟩ 2 0)
        ⟨50, 50⟩ ≠
      (SurfaceCapabilities.mk ⟨uint32Max, 300⟩ ⟨100, 100⟩ ⟨4000, 4000⟩ 2
        0).currentExtent := by
  constructor
  · intro h
    simp [undefinedExtentSentinel, Extent2D.mk.injEq, uint32Max] at h
  · intro h
    simp [chooseSwapExtent, uint32Max, Extent2D.mk.injEq] at h

/-- C3 (amended): the code decides the "undefined extent" case by testing
only the width component of `currentExtent` against `0xFFFFFFFF`.  When the
width differs from `0xFFFFFFFF` the surface-reported extent is returned
verbatim (so in particular whenever the current extent is well defined);
when the width equals `0xFFFFFFFF` (in particular for the sentinel value
itself) the window framebuffer size is clamped component-wise into
`[minImageExtent, maxImageExtent]`. -/
theorem chooseSwapExtent_spec (capabilities : SurfaceCapabilities)
    (framebufferSize : Extent2D) :
    (capabilities.currentExtent.width ≠ uint32Max →
      chooseSwapExtent capabilities framebufferSize =
        capabilities.currentExtent) ∧
    (capabilities.currentExtent.width = uint32Max →
      chooseSwapExtent capabilities framebufferSize =
        specClampedExtent capabilities framebufferSize) := by
  constructor
  · intro h
    simp [chooseSwapExtent, h]
  · intro h
    simp [chooseSwapExtent, specClampedExtent, h]

/-- C3 witness: the spec's two clamping examples, derived from
`chooseSwapExtent_spec`, plus a verbatim case. -/
theorem chooseSwapExtent_spec_examples :
    chooseSwapExtent
        (SurfaceCapabilities.mk undefinedExtentSentinel ⟨100, 100⟩
          ⟨4000, 4000⟩ 2 0) ⟨50, 50⟩ = ⟨100, 100⟩ ∧
    chooseSwapExtent
        (SurfaceCapabilities.mk undefinedExtentSentinel ⟨100, 100⟩
          ⟨4000, 4000⟩ 2 0) ⟨5000, 3000⟩ = ⟨4000, 3000⟩ ∧
    chooseSwapExtent
        (SurfaceCapabilities.mk ⟨800, 600⟩ ⟨100, 100⟩ ⟨4000, 4000⟩ 2 0)
        ⟨50, 50⟩ = ⟨800, 600⟩ := by
  refine ⟨?_, ?_, ?_⟩
  · exact ((chooseSwapExtent_spec _ _).2 rfl).trans (by decide)
  · exact ((chooseSwapExtent_spec _ _).2 rfl).trans (by decide)
  · exact ((chooseSwapExtent_spec _ _).1 (by decide)).trans (by decide)

/-- C4: the requested image count is `minImageCount + 1`, clamped down to
`maxImageCount` when that maximum is nonzero and exceeded. -/
theorem swapchainImageCount_spec (capabilities : SurfaceCapabilities) :
    ((capabilities.maxImageCount = 0 ∨
        capabilities.minImageCount + 1 ≤ capabilities.maxImageCount) →
      swapchainImageCount capabilities = capabilities.minImageCount + 1) ∧
    ((capabilities.maxImageCount ≠ 0 ∧
        capabilities.maxImageCount < capabilities.minImageCount + 1) →
      swapchainImageCount capabilities = capabilities.maxImageCount) := by
  constructor
  · intro h
    have hno : ¬ (capabilities.maxImageCount > 0 ∧
        capabilities.minImageCount + 1 > capabilities.maxImageCount) := by
      omega
    simp [swapchainImageCount, hno]
  · rintro ⟨h0, hlt⟩
    simp only [swapchainImageCount]
    rw [if_pos]
    exact ⟨Nat.pos_of_ne_zero h0, hlt⟩

/-- C4 witness: `min=2, max=0` gives 3; `min=2, max=2` gives 2; derived
from `swapchainImageCount_spec`. -/
theorem swapchainImageCount_spec_examples :
    swapchainImageCount
        (SurfaceCapabilities.mk ⟨800, 600⟩ ⟨1, 1⟩ ⟨4000, 4000⟩ 2 0) = 3 ∧
    swapchainImageCount
        (SurfaceCapabilities.mk ⟨800, 600⟩ ⟨1, 1⟩ ⟨4000, 4000⟩ 2 2) = 2 := by
  constructor
  · exact ((swapchainImageCount_spec _).1 (Or.inl rfl)).trans rfl
  · exact ((swapchainImageCount_spec _).2 (by decide)).trans rfl

/-- C5: the chosen surface format is BGRA8-unorm/SRGB-nonlinear whenever
that pair appears anywhere in the non-empty list, else the first listed
format; the chosen present mode is mailbox whenever present, else FIFO. -/
theorem chooseSwapFormatAndMode_spec (formats : List SurfaceFormat)
    (modes : List PresentMode) (_hf : formats ≠ []) (_hm : modes ≠ []) :
    (preferredSurfaceFormat ∈ formats →
      chooseSwapSurfaceFormat formats = some preferredSurfaceFormat) ∧
    (preferredSurfaceFormat ∉ formats →
      chooseSwapSurfaceFormat formats = formats.head?) ∧
    (PresentMode.mailbox ∈ modes →
      chooseSwapPresentMode modes = PresentMode.mailbox) ∧
    (PresentMode.mailbox ∉ modes →
      chooseSwapPresentMode modes = PresentMode.fifo) := by
  refine ⟨?_, ?_, ?_, ?_⟩
  · intro hmem
    cases hfind : formats.find? (fun f =>
        decide (f.format = Format.b8g8r8a8Unorm ∧
          f.colorSpace = ColorSpace.srgbNonlinear)) with
    | none =>
      exact absurd ((surfaceFormatPred_eq_true_iff _).mpr rfl)
        (List.find?_eq_none.mp hfind _ hmem)
    | some f =>
      have hp := (find?_some_and_mem hfind).1
      have hf' : f = preferredSurfaceFormat :=
        (surfaceFormatPred_eq_true_iff f).mp (by simpa using hp)
      simp only [chooseSwapSurfaceFormat]
      rw [hfind, hf']
  · intro hnmem
    cases hfind : formats.find? (fun f =>
        decide (f.format = Format.b8g8r8a8Unorm ∧
          f.colorSpace = ColorSpace.srgbNonlinear)) with
    | none =>
      simp only [chooseSwapSurfaceFormat]
      rw [hfind]
    | some f =>
      have hp := (find?_some_and_mem hfind).1
      have hf' : f = preferredSurfaceFormat :=
        (surfaceFormatPred_eq_true_iff f).mp (by simpa using hp)
      exact absurd (hf' ▸ (find?_some_and_mem hfind).2) hnmem
  · intro hmem
    cases hfind : modes.find? (fun m =>
        decide (m = PresentMode.mailbox)) with
    | none =>
      exact absurd ((presentModePred_eq_true_iff _).mpr rfl)
        (List.find?_eq_none.mp hfind _ hmem)
    | some m =>
      have hp := (find?_some_and_mem hfind).1
      have hm' : m = PresentMode.mailbox :=
        (presentModePred_eq_true_iff m).mp (by simpa using hp)
      simp only [chooseSwapPresentMode]
      rw [hfind, hm']
  · intro hnmem
    cases hfind : modes.find? (fun m =>
        decide (m = PresentMode.mailbox)) with
    | none =>
      simp only [chooseSwapPresentMode]
      rw [hfind]
    | some m =>
      have hp := (find?_some_and_mem hfind).1
      have hm' : m = PresentMode.mailbox :=
        (presentModePred_eq_true_iff m).mp (by simpa using hp)
      exact absurd (hm' ▸ (find?_some_and_mem hfind).2) hnmem

/-- C5 witness: concrete format/mode lists, with the preferred pair present
late in the list and absent, derived from `chooseSwapFormatAndMode_spec`. -/
theorem chooseSwapFormatAndMode_spec_examples :
    chooseSwapSurfaceFormat
        [⟨Format.other 44, ColorSpace.other 0⟩, preferredSurfaceFormat] =
      some preferredSurfaceFormat ∧
    chooseSwapSurfaceFormat [⟨Format.other 44, ColorSpace.other 0⟩] =
      some ⟨Format.other 44, ColorSpace.other 0⟩ ∧
    chooseSwapPresentMode [PresentMode.fifo, PresentMode.mailbox] =
      PresentMode.mailbox ∧
    chooseSwapPresentMode [PresentMode.fifo, PresentMode.immediate] =
      PresentMode.fifo := by
  refine ⟨?_, ?_, ?_, ?_⟩
  · exact (chooseSwapFormatAndMode_spec _ [PresentMode.fifo] (by decide)
      (by decide)).1 (by decide)
  · exact ((chooseSwapFormatAndMode_spec _ [PresentMode.fifo] (by decide)
      (by decide)).2.1 (by decide)).trans rfl
  · exact (chooseSwapFormatAndMode_spec [preferredSurfaceFormat] _
      (by decide) (by decide)).2.2.1 (by decide)
  · exact (chooseSwapFormatAndMode_spec [preferredSurfaceFormat] _
      (by decide) (by decide)).2.2.2 (by decide)

/-- C1: when the resize flag is set and the acquire reported success, the
current slot's "image available" semaphore is destroyed and recreated and
the resize flag cleared, both before `recreateSwapChain` is invoked (the
trace lists the calls in order, with the rebuild last); when the acquire
did not report success, no semaphore is created and the per-slot semaphore
generations are unchanged. -/
theorem drawFrame_resize_semaphore_recreation (s : AppState)
    (res : VkResult) (idx : Nat) :
    (s.framebufferResized = true → res = VkResult.eSuccess →
      frameTraceOf (drawFrame s res idx) =
        [Action.waitFences s.currentFrame,
         Action.acquireNextImage s.currentFrame,
         Action.destroySemaphore s.currentFrame,
         Action.createSemaphore s.currentFrame,
         Action.clearResizeFlag, Action.recreateSwapchain] ∧
      (frameStateOf s (drawFrame s res idx)).imageAvailGen =
        s.imageAvailGen.set s.currentFrame
          (s.imageAvailGen.getD s.currentFrame 0 + 1) ∧
      (frameStateOf s (drawFrame s res idx)).framebufferResized = false) ∧
    (res ≠ VkResult.eSuccess →
      (frameTraceOf (drawFrame s res idx)).all
        (fun a => ! a.isCreateSemaphore) = true ∧
      (frameStateOf s (drawFrame s res idx)).imageAvailGen =
        s.imageAvailGen) := by
  constructor
  · intro h1 h2
    subst h2
    refine ⟨?_, ?_, ?_⟩ <;>
      simp [drawFrame, frameTraceOf, frameStateOf, h1]
  · intro hne
    by_cases hc : res = VkResult.eErrorOutOfDateKHR ∨
        res = VkResult.eSuboptimalKHR ∨ s.framebufferResized = true
    · have hinner : ¬ (s.framebufferResized = true ∧
          res = VkResult.eSuccess) := fun h => hne h.2
      constructor <;>
        simp [drawFrame, frameTraceOf, frameStateOf, hc, hinner,
          Action.isCreateSemaphore]
    · constructor <;>
        simp [drawFrame, frameTraceOf, frameStateOf, hc, hne]

/-- C2: the acquire result is classified into exactly three cases: on
out-of-date, suboptimal, or a pending resize flag, the swapchain is
rebuilt and the iteration submits and presents nothing; any other
non-success result throws the unrecoverable error; only on success (with
no resize pending) does the iteration submit and present. -/
theorem drawFrame_acquire_classification (s : AppState) (res : VkResult)
    (idx : Nat) :
    ((res = VkResult.eErrorOutOfDateKHR ∨ res = VkResult.eSuboptimalKHR ∨
        s.framebufferResized = true) →
      frameOutcomeOf (drawFrame s res idx) = some FrameOutcome.rebuilt ∧
      Action.recreateSwapchain ∈ frameTraceOf (drawFrame s res idx) ∧
      (frameTraceOf (drawFrame s res idx)).all
        (fun a => ! a.isSubmit) = true ∧
      Action.present idx ∉ frameTraceOf (drawFrame s res idx)) ∧
    (¬ (res = VkResult.eErrorOutOfDateKHR ∨ res = VkResult.eSuboptimalKHR ∨
        s.framebufferResized = true) → res ≠ VkResult.eSuccess →
      drawFrame s res idx =
        Except.error "error: unable to acquire swap chain image.") ∧
    (¬ (res = VkResult.eErrorOutOfDateKHR ∨ res = VkResult.eSuboptimalKHR ∨
        s.framebufferResized = true) → res = VkResult.eSuccess →
      frameOutcomeOf (drawFrame s res idx) = some FrameOutcome.presented ∧
      Action.submit idx s.currentFrame ∈ frameTraceOf (drawFrame s res idx) ∧
      Action.present idx ∈ frameTraceOf (drawFrame s res idx)) := by
  refine ⟨?_, ?_, ?_⟩
  · intro hc
    by_cases hinner : s.framebufferResized = true ∧ res = VkResult.eSuccess
    · refine ⟨?_, ?_, ?_, ?_⟩ <;>
        simp [drawFrame, frameOutcomeOf, frameTraceOf, hc, hinner,
          Action.isSubmit]
    · refine ⟨?_, ?_, ?_, ?_⟩ <;>
        simp [drawFrame, frameOutcomeOf, frameTraceOf, hc, hinner,
          Action.isSubmit]
  · intro hc hne
    simp [drawFrame, hc, hne]
  · intro hc hok
    subst hok
    have hr : s.framebufferResized = false := by
      rcases Bool.eq_false_or_eq_true s.framebufferResized with h | h
      · exact absurd (Or.inr (Or.inr h)) hc
      · exact h
    refine ⟨?_, ?_, ?_⟩ <;>
      simp [drawFrame, frameOutcomeOf, frameTraceOf, hr]

/-- C10: on the stale/resize rebuild path, `drawFrame` returns before
resetting the slot's fence, before submitting, and before advancing the
frame index: the trace contains no `resetFences`, `submit` or
frame-advance step, the frame index and the fence states are unchanged,
and (the fence having been observed signalled by this iteration's wait)
the retry iteration's wait on the same slot does not block. -/
theorem drawFrame_rebuild_preserves_slot (s : AppState) (res : VkResult)
    (idx : Nat)
    (hc : res = VkResult.eErrorOutOfDateKHR ∨
      res = VkResult.eSuboptimalKHR ∨ s.framebufferResized = true)
    (hfence : s.fenceSignaled.getD s.currentFrame false = true) :
    frameOutcomeOf (drawFrame s res idx) = some FrameOutcome.rebuilt ∧
    (frameStateOf s (drawFrame s res idx)).currentFrame = s.currentFrame ∧
    (frameStateOf s (drawFrame s res idx)).fenceSignaled =
      s.fenceSignaled ∧
    waitWouldBlock (frameStateOf s (drawFrame s res idx)) = false ∧
    (frameTraceOf (drawFrame s res idx)).all
      (fun a => ! a.isResetFences && ! a.isSubmit &&
        ! a.isAdvanceFrame) = true := by
  have hfence' : (s.fenceSignaled[s.currentFrame]?.getD false) = true := by
    simpa [List.getD] using hfence
  by_cases hinner : s.framebufferResized = true ∧ res = VkResult.eSuccess
  · refine ⟨?_, ?_, ?_, ?_, ?_⟩ <;>
      simp [drawFrame, frameOutcomeOf, frameStateOf, frameTraceOf,
        waitWouldBlock, hc, hinner, hfence', Action.isResetFences,
        Action.isSubmit, Action.isAdvanceFrame]
  · refine ⟨?_, ?_, ?_, ?_, ?_⟩ <;>
      simp [drawFrame, frameOutcomeOf, frameStateOf, frameTraceOf,
        waitWouldBlock, hc, hinner, hfence', Action.isResetFences,
        Action.isSubmit, Action.isAdvanceFrame]

/-- C1 witness: a concrete resized state with a successful acquire shows
the destroy/create/clear steps preceding the rebuild, and an out-of-date
acquire creates no semaphore; both derived from
`drawFrame_resize_semaphore_recreation`. -/
theorem drawFrame_resize_semaphore_recreation_example :
    frameTraceOf (drawFrame (AppState.mk 2 0 true [0, 0] [true, true] 0)
        VkResult.eSuccess 1) =
      [Action.waitFences 0, Action.acquireNextImage 0,
       Action.destroySemaphore 0, Action.createSemaphore 0,
       Action.clearResizeFlag, Action.recreateSwapchain] ∧
    (frameTraceOf (drawFrame (AppState.mk 2 0 false [0, 0] [true, true] 0)
        VkResult.eErrorOutOfDateKHR 0)).all
      (fun a => ! a.isCreateSemaphore) = true := by
  constructor
  · exact ((drawFrame_resize_semaphore_recreation
      (AppState.mk 2 0 true [0, 0] [true, true] 0)
      VkResult.eSuccess 1).1 rfl rfl).1
  · exact ((drawFrame_resize_semaphore_recreation
      (AppState.mk 2 0 false [0, 0] [true, true] 0)
      VkResult.eErrorOutOfDateKHR 0).2 (by decide)).1

/-- C2 witness: the three classification cases at concrete inputs, derived
from `drawFrame_acquire_classification`. -/
theorem drawFrame_acquire_classification_example :
    frameOutcomeOf (drawFrame (AppState.mk 2 0 false [0, 0] [true, true] 0)
        VkResult.eSuboptimalKHR 0) = some FrameOutcome.rebuilt ∧
    drawFrame (AppState.mk 2 0 false [0, 0] [true, true] 0)
        (VkResult.eOther 7) 0 =
      Except.error "error: unable to acquire swap chain image." ∧
    frameOutcomeOf (drawFrame (AppState.mk 2 0 false [0, 0] [true, true] 0)
        VkResult.eSuccess 1) = some FrameOutcome.presented := by
  refine ⟨?_, ?_, ?_⟩
  · exact ((drawFrame_acquire_classification
      (AppState.mk 2 0 false [0, 0] [true, true] 0)
      VkResult.eSuboptimalKHR 0).1 (Or.inr (Or.inl rfl))).1
  · exact (drawFrame_acquire_classification
      (AppState.mk 2 0 false [0, 0] [true, true] 0)
      (VkResult.eOther 7) 0).2.1 (by decide) (by decide)
  · exact ((drawFrame_acquire_classification
      (AppState.mk 2 0 false [0, 0] [true, true] 0)
      VkResult.eSuccess 1).2.2 (by decide) rfl).1

/-- C10 witness: a concrete out-of-date acquire at slot 1, derived from
`drawFrame_rebuild_preserves_slot`. -/
theorem drawFrame_rebuild_preserves_slot_example :
    frameOutcomeOf (drawFrame (AppState.mk 2 1 false [0, 0] [true, true] 0)
        VkResult.eErrorOutOfDateKHR 0) = some FrameOutcome.rebuilt ∧
    (frameStateOf (AppState.mk 2 1 false [0, 0] [true, true] 0)
        (drawFrame (AppState.mk 2 1 false [0, 0] [true, true] 0)
          VkResult.eErrorOutOfDateKHR 0)).currentFrame = 1 ∧
    waitWouldBlock (frameStateOf (AppState.mk 2 1 false [0, 0] [true, true] 0)
        (drawFrame (AppState.mk 2 1 false [0, 0] [true, true] 0)
          VkResult.eErrorOutOfDateKHR 0)) = false := by
  have h := drawFrame_rebuild_preserves_slot
    (AppState.mk 2 1 false [0, 0] [true, true] 0)
    VkResult.eErrorOutOfDateKHR 0 (Or.inl rfl) (by decide)
  exact ⟨h.1, h.2.1, h.2.2.2.1⟩

/-- C6 counterexample: in both chapters' `cleanupSwapChain`, framebuffers
are destroyed and the command buffers are freed only afterwards, so the
claimed "command buffers first, then framebuffers" order does not hold. -/
theorem cleanupSwapChain_commandBuffers_not_first :
    RebuildAction.freeCommandBuffers ∈ cleanupSwapChainTriangle ∧
    RebuildAction.destroyFramebuffers ∈ cleanupSwapChainTriangle ∧
    ¬ (actionIdx cleanupSwapChainTriangle RebuildAction.freeCommandBuffers <
        actionIdx cleanupSwapChainTriangle
          RebuildAction.destroyFramebuffers) ∧
    RebuildAction.freeCommandBuffers ∈ cleanupSwapChainDepth ∧
    RebuildAction.destroyFramebuffers ∈ cleanupSwapChainDepth ∧
    ¬ (actionIdx cleanupSwapChainDepth RebuildAction.freeCommandBuffers <
        actionIdx cleanupSwapChainDepth RebuildAction.destroyFramebuffers) := by
  decide

/-- C6 (amended): the teardown order actually used by both chapters is
framebuffers → command buffers → pipeline → render pass → image views →
chain (in the depth chapter preceded by the depth resources and followed
by the uniform buffers, descriptor sets and descriptor pool). -/
theorem cleanupSwapChain_destroy_order :
    (RebuildAction.destroyFramebuffers ∈ cleanupSwapChainTriangle ∧
     actionIdx cleanupSwapChainTriangle RebuildAction.destroyFramebuffers <
       actionIdx cleanupSwapChainTriangle RebuildAction.freeCommandBuffers ∧
     actionIdx cleanupSwapChainTriangle RebuildAction.freeCommandBuffers <
       actionIdx cleanupSwapChainTriangle RebuildAction.destroyPipeline ∧
     actionIdx cleanupSwapChainTriangle RebuildAction.destroyPipeline <
       actionIdx cleanupSwapChainTriangle RebuildAction.destroyRenderPass ∧
     actionIdx cleanupSwapChainTriangle RebuildAction.destroyRenderPass <
       actionIdx cleanupSwapChainTriangle RebuildAction.destroyImageViews ∧
     actionIdx cleanupSwapChainTriangle RebuildAction.destroyImageViews <
       actionIdx cleanupSwapChainTriangle RebuildAction.destroySwapchain ∧
     RebuildAction.destroySwapchain ∈ cleanupSwapChainTriangle) ∧
    (RebuildAction.destroyFramebuffers ∈ cleanupSwapChainDepth ∧
     actionIdx cleanupSwapChainDepth RebuildAction.destroyFramebuffers <
       actionIdx cleanupSwapChainDepth RebuildAction.freeCommandBuffers ∧
     actionIdx cleanupSwapChainDepth RebuildAction.freeCommandBuffers <
       actionIdx cleanupSwapChainDepth RebuildAction.destroyPipeline ∧
     actionIdx cleanupSwapChainDepth RebuildAction.destroyPipeline <
       actionIdx cleanupSwapChainDepth RebuildAction.destroyRenderPass ∧
     actionIdx cleanupSwapChainDepth RebuildAction.destroyRenderPass <
       actionIdx cleanupSwapChainDepth RebuildAction.destroyImageViews ∧
     actionIdx cleanupSwapChainDepth RebuildAction.destroyImageViews <
       actionIdx cleanupSwapChainDepth RebuildAction.destroySwapchain ∧
     RebuildAction.destroySwapchain ∈ cleanupSwapChainDepth) := by
  decide

/-- C7 counterexample: the depth-buffering chapter's rebuild destroys and
recreates its descriptor pool, contradicting "the descriptor pool is
neither destroyed nor recreated". -/
theorem recreateSwapChain_descriptorPool_rebuilt :
    RebuildAction.destroyDescriptorPool ∈ recreateSwapChainDepth ∧
    RebuildAction.createDescriptorPool ∈ recreateSwapChainDepth := by
  decide

/-- C7 (amended): across a rebuild the command pool is left untouched in
both chapters — only command buffers are freed and reallocated — while the
depth chapter's descriptor pool is destroyed and recreated together with
its descriptor sets. -/
theorem recreateSwapChain_pool_preservation :
    RebuildAction.destroyCommandPool ∉ recreateSwapChainTriangle ∧
    RebuildAction.createCommandPool ∉ recreateSwapChainTriangle ∧
    RebuildAction.destroyCommandPool ∉ recreateSwapChainDepth ∧
    RebuildAction.createCommandPool ∉ recreateSwapChainDepth ∧
    RebuildAction.freeCommandBuffers ∈ recreateSwapChainTriangle ∧
    RebuildAction.createCommandBuffers ∈ recreateSwapChainTriangle ∧
    RebuildAction.freeCommandBuffers ∈ recreateSwapChainDepth ∧
    RebuildAction.createCommandBuffers ∈ recreateSwapChainDepth ∧
    RebuildAction.destroyDescriptorSets ∈ recreateSwapChainDepth ∧
    RebuildAction.createDescriptorSets ∈ recreateSwapChainDepth ∧
    RebuildAction.destroyDescriptorPool ∈ recreateSwapChainDepth ∧
    RebuildAction.createDescriptorPool ∈ recreateSwapChainDepth := by
  decide

theorem pickPhysicalDeviceLoop_none_ok (devices : List PhysicalDevice)
    (h : ∀ d ∈ devices, isDeviceSuitable d = false) :
    pickPhysicalDeviceLoop devices none = Except.ok none := by
  induction devices with
  | nil => rfl
  | cons d rest ih =>
    have hd := h d (List.mem_cons_self d rest)
    simp only [pickPhysicalDeviceLoop, hd, Bool.false_eq_true, if_false,
      Option.isSome_none]
    exact ih (fun x hx => h x (List.mem_cons_of_mem d hx))

/-- C8: on a non-empty device enumeration in which no device passes the
suitability check, `pickPhysicalDevice` returns normally with no device
selected — the throw inside the loop is unreachable, so no Error is
surfaced, contradicting the spec's intent (the loop's own error branch
exists precisely for this case). -/
theorem pickPhysicalDevice_silent_when_none_suitable
    (devices : List PhysicalDevice) (hne : devices ≠ [])
    (h : ∀ d ∈ devices, isDeviceSuitable d = false) :
    pickPhysicalDevice devices = Except.ok none := by
  cases devices with
  | nil => exact absurd rfl hne
  | cons d rest =>
    simp only [pickPhysicalDevice, List.isEmpty_cons, Bool.false_eq_true,
      if_false]
    exact pickPhysicalDeviceLoop_none_ok (d :: rest) h

/-- C8 witness: a single enumerated device that fails the suitability
check makes `pickPhysicalDevice` return success with no device, via
`pickPhysicalDevice_silent_when_none_suitable`. -/
theorem pickPhysicalDevice_silent_example :
    isDeviceSuitable
      (PhysicalDevice.mk (PhysicalDeviceType.other 4) [] [] [] []) = false ∧
    pickPhysicalDevice
      [PhysicalDevice.mk (PhysicalDeviceType.other 4) [] [] [] []] =
      Except.ok none := by
  constructor
  · decide
  · exact pickPhysicalDevice_silent_when_none_suitable
      [PhysicalDevice.mk (PhysicalDeviceType.other 4) [] [] [] []]
      (by decide) (by decide)

/-- C9 counterexample: no physical device of discrete type with incomplete
queue-family indices is ever accepted by `isDeviceSuitable` — the source
groups the type test into its own boolean and conjoins completeness
separately, so the claimed precedence bug does not exist. -/
theorem isDeviceSuitable_no_precedence_bug :
    ¬ ∃ d : PhysicalDevice,
      d.deviceType = PhysicalDeviceType.discreteGpu ∧
      (findQueueFamilies d.queueFamilies).isComplete = false ∧
      isDeviceSuitable d = true := by
  rintro ⟨d, _hd, hinc, hsuit⟩
  simp only [isDeviceSuitable, Bool.and_eq_true] at hsuit
  exact absurd (hinc.symm.trans hsuit.1.1.2) (by decide)

/-- C9 (amended): the suitability check requires the explicitly grouped
condition "(discrete OR integrated) AND complete": every accepted device
is discrete or integrated AND has complete queue-family indices, so a
discrete device with incomplete indices is rejected. -/
theorem isDeviceSuitable_requires_complete (d : PhysicalDevice)
    (h : isDeviceSuitable d = true) :
    (d.deviceType = PhysicalDeviceType.discreteGpu ∨
      d.deviceType = PhysicalDeviceType.integratedGpu) ∧
    (findQueueFamilies d.queueFamilies).isComplete = true := by
  simp only [isDeviceSuitable, Bool.and_eq_true, decide_eq_true_eq] at h
  exact ⟨h.1.1.1, h.1.1.2⟩

/-- C9 witness: a concrete discrete device with a complete queue family is
suitable, and `isDeviceSuitable_requires_complete` recovers the
completeness of its indices. -/
theorem isDeviceSuitable_requires_complete_example :
    isDeviceSuitable (PhysicalDevice.mk PhysicalDeviceType.discreteGpu
      [QueueFamilyProperties.mk 1 true true] ["VK_KHR_swapchain"]
      [preferredSurfaceFormat] [PresentMode.fifo]) = true ∧
    (findQueueFamilies (PhysicalDevice.mk PhysicalDeviceType.discreteGpu
      [QueueFamilyProperties.mk 1 true true] ["VK_KHR_swapchain"]
      [preferredSurfaceFormat] [PresentMode.fifo]).queueFamilies).isComplete =
      true := by
  constructor
  · decide
  · exact (isDeviceSuitable_requires_complete
      (PhysicalDevice.mk PhysicalDeviceType.discreteGpu
        [QueueFamilyProperties.mk 1 true true] ["VK_KHR_swapchain"]
        [preferredSurfaceFormat] [PresentMode.fifo]) (by decide)).2

end VkLearn
